import Mathlib

/-!
Shallow embedding of `src/homework.py` (fitness-tracker calculator).

Conventions of the embedding:
* Python floats are modelled by exact rationals (`ℚ`); every numeric literal
  of the source (`0.65`, `1.79`, `0.278`, ...) is carried over exactly.
* Python exceptions are modelled by `Except PyError`: a division whose
  divisor is zero yields `PyError.zeroDivisionError` (Python raises
  `ZeroDivisionError`), a call with the wrong number of positional
  arguments yields `PyError.typeError` (Python raises `TypeError`), and
  `raise NotImplementedError(msg)` yields `PyError.notImplementedError msg`.
* The class hierarchy `Training / Running / SportsWalking / Swimming` is
  modelled by one structure per class plus the closed variant type
  `TrainingV` used by the factory `read_package`, following the source's
  fixed dispatch table.
* `str.format` with the dataclass template is modelled by a parsed list of
  template parts (`MessageParts`) consumed against the positional argument
  list that `asdict(self).values()` produces (which includes the `Message`
  field itself as a trailing, unused sixth argument, as in the source).
-/

/-- Errors a modelled Python computation can raise. -/
inductive PyError where
  | notImplementedError (msg : String)
  | typeError
  | zeroDivisionError
deriving DecidableEq

/-- Python division on floats: raises `ZeroDivisionError` when the divisor
is zero, otherwise returns the quotient. -/
def pydiv (a b : ℚ) : Except PyError ℚ :=
  if b = 0 then .error .zeroDivisionError else .ok (a / b)

theorem pydiv_ne (a b : ℚ) (h : b ≠ 0) : pydiv a b = .ok (a / b) := by
  simp [pydiv, h]

theorem pydiv_zero (a : ℚ) : pydiv a 0 = .error .zeroDivisionError := rfl

/-- Exception propagation: a failing sub-expression aborts the enclosing
expression with the same error (Python's exception flow). -/
def exbind {α : Type} (x : Except PyError ℚ) (f : ℚ → Except PyError α) :
    Except PyError α :=
  match x with
  | .error e => .error e
  | .ok v => f v

@[simp] theorem exbind_ok {α : Type} (v : ℚ) (f : ℚ → Except PyError α) :
    exbind (.ok v) f = f v := rfl

@[simp] theorem exbind_error {α : Type} (e : PyError) (f : ℚ → Except PyError α) :
    exbind (.error e) f = .error e := rfl

/-- Class constant `Training.LEN_STEP = 0.65`. -/
def Training.LEN_STEP : ℚ := 0.65

/-- Class constant `Training.M_IN_KM = 1000`. -/
def Training.M_IN_KM : ℚ := 1000

/-- Class constant `Training.TIME_IN_MIN = 60`. -/
def Training.TIME_IN_MIN : ℚ := 60

/-- Base class `Training(action, duration, weight)`. -/
structure Training where
  action : ℚ
  duration : ℚ
  weight : ℚ

/-- A Python value as far as this program can observe it: either a float or
a class object (the source's base `get_spent_calories` returns the class
`NotImplementedError` itself). -/
inductive PyValue where
  | num (q : ℚ)
  | excClass (name : String)
deriving DecidableEq

/-- Outcome of calling a method: the call either returns a value normally or
raises an exception. -/
inductive CallOutcome where
  | returned (v : PyValue)
  | raised (e : PyError)
deriving DecidableEq

/-- Base `Training.get_distance`: `action * LEN_STEP / M_IN_KM`. -/
def Training.get_distance (t : Training) : ℚ :=
  t.action * Training.LEN_STEP / Training.M_IN_KM

/-- Base `Training.get_mean_speed`: `get_distance() / duration`. -/
def Training.get_mean_speed (t : Training) : Except PyError ℚ :=
  pydiv t.get_distance t.duration

/-- Base `Training.get_spent_calories`: the source executes
`return NotImplementedError`, i.e. it returns the exception class as a
value; it does not raise. -/
def Training.get_spent_calories (_ : Training) : CallOutcome :=
  .returned (.excClass "NotImplementedError")

/-- Class constant `Running.CALORIES_MEAN_SPEED_MULTIPLIER = 18`. -/
def Running.CALORIES_MEAN_SPEED_MULTIPLIER : ℚ := 18

/-- Class constant `Running.CALORIES_MEAN_SPEED_SHIFT = 1.79`. -/
def Running.CALORIES_MEAN_SPEED_SHIFT : ℚ := 1.79

/-- `Running(action, duration, weight)` (inherits the base constructor). -/
structure Running where
  action : ℚ
  duration : ℚ
  weight : ℚ

/-- Running inherits `get_distance` (step length 0.65). -/
def Running.get_distance (r : Running) : ℚ :=
  r.action * Training.LEN_STEP / Training.M_IN_KM

/-- Running inherits `get_mean_speed`. -/
def Running.get_mean_speed (r : Running) : Except PyError ℚ :=
  pydiv r.get_distance r.duration

/-- `Running.get_spent_calories`:
`(18 * mean_speed + 1.79) * weight / M_IN_KM * duration * 60`. -/
def Running.get_spent_calories (r : Running) : Except PyError ℚ :=
  exbind r.get_mean_speed fun s =>
    .ok ((Running.CALORIES_MEAN_SPEED_MULTIPLIER * s
          + Running.CALORIES_MEAN_SPEED_SHIFT) * r.weight / Training.M_IN_KM
         * r.duration * Training.TIME_IN_MIN)

/-- Class constant `SportsWalking.COLORIES_MEAN_SPEED_1 = 0.035`. -/
def SportsWalking.COLORIES_MEAN_SPEED_1 : ℚ := 0.035

/-- Class constant `SportsWalking.COLORIES_MEAN_SPEED_2 = 0.029`. -/
def SportsWalking.COLORIES_MEAN_SPEED_2 : ℚ := 0.029

/-- Class constant `SportsWalking.FROM_KM_TO_MS = 0.278`. -/
def SportsWalking.FROM_KM_TO_MS : ℚ := 0.278

/-- Class constant `SportsWalking.FROM_SM_TO_M = 100`. -/
def SportsWalking.FROM_SM_TO_M : ℚ := 100

/-- `SportsWalking(action, duration, weight, height)`. -/
structure SportsWalking where
  action : ℚ
  duration : ℚ
  weight : ℚ
  height : ℚ

/-- SportsWalking inherits `get_distance` (step length 0.65). -/
def SportsWalking.get_distance (w : SportsWalking) : ℚ :=
  w.action * Training.LEN_STEP / Training.M_IN_KM

/-- SportsWalking inherits `get_mean_speed`. -/
def SportsWalking.get_mean_speed (w : SportsWalking) : Except PyError ℚ :=
  pydiv w.get_distance w.duration

/-- `SportsWalking.get_spent_calories`:
`((0.035*weight) + ((mean_speed*0.278)**2 / (height/100)) * (0.029*weight))
 * (duration * 60)`; evaluation order as in the source: the mean speed
(and its division by `duration`) is computed first, then the division by
`height / 100`. -/
def SportsWalking.get_spent_calories (w : SportsWalking) : Except PyError ℚ :=
  exbind w.get_mean_speed fun s =>
    exbind (pydiv ((s * SportsWalking.FROM_KM_TO_MS) ^ 2)
                  (w.height / SportsWalking.FROM_SM_TO_M)) fun q =>
      .ok (((SportsWalking.COLORIES_MEAN_SPEED_1 * w.weight)
            + q * (SportsWalking.COLORIES_MEAN_SPEED_2 * w.weight))
           * (w.duration * Training.TIME_IN_MIN))

/-- Class constant `Swimming.LEN_STEP = 1.38` (overrides the base). -/
def Swimming.LEN_STEP : ℚ := 1.38

/-- Class constant `Swimming.CALORIES_MEAN_SPEED_1 = 1.1`. -/
def Swimming.CALORIES_MEAN_SPEED_1 : ℚ := 1.1

/-- Class constant `Swimming.CALORIES_MEAN_SPEED_2 = 2`. -/
def Swimming.CALORIES_MEAN_SPEED_2 : ℚ := 2

/-- `Swimming(action, duration, weight, length_pool, count_pool)`. -/
structure Swimming where
  action : ℚ
  duration : ℚ
  weight : ℚ
  length_pool : ℚ
  count_pool : ℚ

/-- Swimming inherits `get_distance` but with its own `LEN_STEP = 1.38`
(`self.LEN_STEP` resolves to the subclass constant). -/
def Swimming.get_distance (s : Swimming) : ℚ :=
  s.action * Swimming.LEN_STEP / Training.M_IN_KM

/-- `Swimming.get_mean_speed` (overrides the base):
`length_pool * count_pool / M_IN_KM / duration`. -/
def Swimming.get_mean_speed (s : Swimming) : Except PyError ℚ :=
  pydiv (s.length_pool * s.count_pool / Training.M_IN_KM) s.duration

/-- `Swimming.get_spent_calories`:
`(mean_speed + 1.1) * 2 * weight * duration`. -/
def Swimming.get_spent_calories (s : Swimming) : Except PyError ℚ :=
  exbind s.get_mean_speed fun v =>
    .ok ((v + Swimming.CALORIES_MEAN_SPEED_1) * Swimming.CALORIES_MEAN_SPEED_2
         * s.weight * s.duration)

/-- The dataclass `InfoMessage` (its sixth field `Message` is the constant
template, represented separately as `InfoMessage.MessageRaw` and
`MessageParts`). -/
structure InfoMessage where
  training_type : String
  duration : ℚ
  distance : ℚ
  speed : ℚ
  calories : ℚ

/-- The raw value of the `Message` dataclass field of the source. -/
def InfoMessage.MessageRaw : String :=
  "Тип тренировки: \x7b\x7d; Длительность: \x7b:.3f\x7d ч.; Дистанция: \x7b:.3f\x7d км; Ср. скорость: \x7b:.3f\x7d км/ч; Потрачено ккал: \x7b:.3f\x7d."

/-- A positional argument passed to `str.format`: the program only ever
passes strings and floats. -/
inductive FieldVal where
  | str (s : String)
  | num (q : ℚ)

/-- One parsed piece of a format template: a literal, a plain hole `\x7b\x7d`,
or a fixed-precision hole `\x7b:.3f\x7d`. -/
inductive TPart where
  | lit (s : String)
  | hole
  | hole3

/-- The parse of `InfoMessage.MessageRaw` into literals and holes. -/
def MessageParts : List TPart :=
  [.lit "Тип тренировки: ", .hole,
   .lit "; Длительность: ", .hole3,
   .lit " ч.; Дистанция: ", .hole3,
   .lit " км; Ср. скорость: ", .hole3,
   .lit " км/ч; Потрачено ккал: ", .hole3,
   .lit "."]

/-- Pad a digit string on the left with zeros to width 3 (used for the
fractional part of a `.3f` rendering). -/
def pad3 (s : String) : String :=
  if s.length = 1 then "00" ++ s else if s.length = 2 then "0" ++ s else s

/-- Python's `format(x, ".3f")` modelled over `ℚ`: round `x` to the nearest
thousandth (the tie direction is irrelevant to every value this program
formats) and print with exactly three digits after the point. -/
def format3 (q : ℚ) : String :=
  let n : Int := Int.floor (q * 1000 + 1 / 2)
  let sgn : String := if n < 0 then "-" else ""
  let m : Nat := n.natAbs
  sgn ++ toString (m / 1000) ++ "." ++ pad3 (toString (m % 1000))

/-- Rendering of an argument by a plain hole `\x7b\x7d` (only ever reached with a
string argument in this program). -/
def renderPlain : FieldVal → String
  | .str s => s
  | .num q => toString q

/-- Rendering of an argument by a `\x7b:.3f\x7d` hole (only ever reached with a
numeric argument in this program; Python would raise on a string). -/
def render3 : FieldVal → String
  | .str s => s
  | .num q => format3 q

/-- `Message.format(*args)`: walk the template, copying literals and filling
each hole with the next positional argument; surplus arguments are ignored,
as in Python. (A hole beyond the end of the arguments would raise in
Python; the program always supplies six arguments for five holes, so that
branch is never reached.) -/
def formatParts : List TPart → List FieldVal → String
  | [], _ => ""
  | .lit s :: ps, args => s ++ formatParts ps args
  | .hole :: _, [] => ""
  | .hole :: ps, a :: args => renderPlain a ++ formatParts ps args
  | .hole3 :: _, [] => ""
  | .hole3 :: ps, a :: args => render3 a ++ formatParts ps args

/-- `asdict(self).values()` of an `InfoMessage`: the six field values in
declaration order — the five data fields followed by the `Message` template
itself. -/
def InfoMessage.asdictValues (m : InfoMessage) : List FieldVal :=
  [.str m.training_type, .num m.duration, .num m.distance, .num m.speed,
   .num m.calories, .str InfoMessage.MessageRaw]

/-- `InfoMessage.get_message`: `self.Message.format(*asdict(self).values())`. -/
def InfoMessage.get_message (m : InfoMessage) : String :=
  formatParts MessageParts m.asdictValues

/-- The closed set of trainings the factory can construct. -/
inductive TrainingV where
  | swm (s : Swimming)
  | run (r : Running)
  | wlk (w : SportsWalking)

/-- `self.__class__.__name__` of a constructed training. -/
def TrainingV.name : TrainingV → String
  | .swm _ => "Swimming"
  | .run _ => "Running"
  | .wlk _ => "SportsWalking"

/-- The `duration` field of a constructed training. -/
def TrainingV.duration : TrainingV → ℚ
  | .swm s => s.duration
  | .run r => r.duration
  | .wlk w => w.duration

/-- Dynamic dispatch of `get_distance`. -/
def TrainingV.get_distance : TrainingV → ℚ
  | .swm s => s.get_distance
  | .run r => r.get_distance
  | .wlk w => w.get_distance

/-- Dynamic dispatch of `get_mean_speed`. -/
def TrainingV.get_mean_speed : TrainingV → Except PyError ℚ
  | .swm s => s.get_mean_speed
  | .run r => r.get_mean_speed
  | .wlk w => w.get_mean_speed

/-- Dynamic dispatch of `get_spent_calories`. -/
def TrainingV.get_spent_calories : TrainingV → Except PyError ℚ
  | .swm s => s.get_spent_calories
  | .run r => r.get_spent_calories
  | .wlk w => w.get_spent_calories

/-- `Training.show_training_info`: builds the `InfoMessage` from the class
name, duration, distance, mean speed and calories, in that order; an
exception in any component aborts the call. -/
def TrainingV.show_training_info (t : TrainingV) : Except PyError InfoMessage :=
  exbind t.get_mean_speed fun s =>
    exbind t.get_spent_calories fun c =>
      .ok ⟨t.name, t.duration, t.get_distance, s, c⟩

/-- Calling `Swimming(*data)`: exactly five positional arguments bind the
five fields in order; any other count raises `TypeError` (Python's call
protocol). -/
def Swimming.fromList : List ℚ → Except PyError Swimming
  | [a, d, w, lp, cp] => .ok ⟨a, d, w, lp, cp⟩
  | _ => .error .typeError

/-- Calling `Running(*data)`: exactly three positional arguments. -/
def Running.fromList : List ℚ → Except PyError Running
  | [a, d, w] => .ok ⟨a, d, w⟩
  | _ => .error .typeError

/-- Calling `SportsWalking(*data)`: exactly four positional arguments. -/
def SportsWalking.fromList : List ℚ → Except PyError SportsWalking
  | [a, d, w, h] => .ok ⟨a, d, w, h⟩
  | _ => .error .typeError

/-- `read_package(workout_type, data)`: membership test in the dispatch
dict `{SWM: Swimming, RUN: Running, WLK: SportsWalking}`; an unknown code
raises `NotImplementedError('Ошибка не определена')`, a known one calls the
class on the unpacked data. -/
def read_package (workout_type : String) (data : List ℚ) :
    Except PyError TrainingV :=
  if workout_type = "SWM" then (Swimming.fromList data).map .swm
  else if workout_type = "RUN" then (Running.fromList data).map .run
  else if workout_type = "WLK" then (SportsWalking.fromList data).map .wlk
  else .error (.notImplementedError "Ошибка не определена")

/-- Does the character list begin with the given pattern? -/
def beginsWith : List Char → List Char → Bool
  | [], _ => true
  | _ :: _, [] => false
  | a :: as, b :: bs => a == b && beginsWith as bs

/-- Does the pattern occur contiguously anywhere in the character list? -/
def containsSeq (needle : List Char) : List Char → Bool
  | [] => needle.isEmpty
  | c :: cs => beginsWith needle (c :: cs) || containsSeq needle cs

/-!
Theorems settling the claims.
-/

/-- C2: the spec requires the base `get_spent_calories` to fail by raising
"unimplemented"; the source instead executes `return NotImplementedError`,
handing the exception class back as an ordinary value and raising nothing.
This theorem records the code's actual behaviour at the sample running
reading used as the base constructor's arguments. -/
theorem claim2_base_calories_returns_class :
    (Training.mk 15000 1 75).get_spent_calories
      = CallOutcome.returned (PyValue.excClass "NotImplementedError")
  ∧ ∀ e : PyError,
      (Training.mk 15000 1 75).get_spent_calories ≠ CallOutcome.raised e := by
  refine ⟨rfl, fun e h => ?_⟩
  simp [Training.get_spent_calories] at h

/-- C3 (counterexample): the walking sample's calories are exactly
349.251747525 kcal, which is not approximately 163.0 (the gap exceeds 186),
refuting the claim's numeric value. -/
theorem claim3_counterexample :
    (SportsWalking.mk 9000 1 75 180).get_spent_calories = .ok 349.251747525
  ∧ (349.251747525 : ℚ) - 163.0 > 186 := by
  constructor
  · norm_num [SportsWalking.get_spent_calories, SportsWalking.get_mean_speed,
      SportsWalking.get_distance, pydiv, Training.LEN_STEP, Training.M_IN_KM,
      Training.TIME_IN_MIN, SportsWalking.COLORIES_MEAN_SPEED_1,
      SportsWalking.COLORIES_MEAN_SPEED_2, SportsWalking.FROM_KM_TO_MS,
      SportsWalking.FROM_SM_TO_M]
  · norm_num

/-- C3 (amended): for Walking(action=9000, duration=1, weight=75,
height=180): distance is 5.85 km, mean speed 5.85 km/h, and the calories
equal the spec's formula
`(0.035*weight + (mean_speed*0.278)^2 / (height/100) * 0.029*weight) * duration * 60`,
whose exact value is 349.251747525 kcal (approximately 349.25, not 163.0). -/
theorem claim3_amended_walking_sample :
    (SportsWalking.mk 9000 1 75 180).get_distance = 5.85
  ∧ (SportsWalking.mk 9000 1 75 180).get_mean_speed = .ok 5.85
  ∧ (SportsWalking.mk 9000 1 75 180).get_spent_calories
      = .ok ((0.035 * 75 + (5.85 * 0.278) ^ 2 / (180 / 100) * (0.029 * 75)) * 1 * 60)
  ∧ (0.035 * 75 + ((5.85 : ℚ) * 0.278) ^ 2 / (180 / 100) * (0.029 * 75)) * 1 * 60
      = 349.251747525 := by
  refine ⟨?_, ?_, ?_, by norm_num⟩
  · norm_num [SportsWalking.get_distance, Training.LEN_STEP, Training.M_IN_KM]
  · norm_num [SportsWalking.get_mean_speed, SportsWalking.get_distance, pydiv,
      Training.LEN_STEP, Training.M_IN_KM]
  · norm_num [SportsWalking.get_spent_calories, SportsWalking.get_mean_speed,
      SportsWalking.get_distance, pydiv, Training.LEN_STEP, Training.M_IN_KM,
      Training.TIME_IN_MIN, SportsWalking.COLORIES_MEAN_SPEED_1,
      SportsWalking.COLORIES_MEAN_SPEED_2, SportsWalking.FROM_KM_TO_MS,
      SportsWalking.FROM_SM_TO_M]

/-- C4 (counterexample): the running sample's calories are exactly 797.805
kcal; the claimed approximation 798.0375 is off by 0.2325, more than the
four-decimal precision at which it is stated. -/
theorem claim4_counterexample :
    (Running.mk 15000 1 75).get_spent_calories = .ok 797.805
  ∧ (797.805 : ℚ) ≠ 798.0375
  ∧ (798.0375 : ℚ) - 797.805 = 0.2325 := by
  refine ⟨?_, by norm_num, by norm_num⟩
  norm_num [Running.get_spent_calories, Running.get_mean_speed,
    Running.get_distance, pydiv, Training.LEN_STEP, Training.M_IN_KM,
    Training.TIME_IN_MIN, Running.CALORIES_MEAN_SPEED_MULTIPLIER,
    Running.CALORIES_MEAN_SPEED_SHIFT]

/-- C4 (amended): for Running(action=15000, duration=1, weight=75):
distance is 9.75 km, mean speed 9.75 km/h, and the calories equal
`(18*9.75 + 1.79) * 75 / 1000 * 1 * 60`, whose exact value is 797.805 kcal
(not 798.0375). -/
theorem claim4_amended_running_sample :
    (Running.mk 15000 1 75).get_distance = 9.75
  ∧ (Running.mk 15000 1 75).get_mean_speed = .ok 9.75
  ∧ (Running.mk 15000 1 75).get_spent_calories
      = .ok ((18 * 9.75 + 1.79) * 75 / 1000 * 1 * 60)
  ∧ ((18 : ℚ) * 9.75 + 1.79) * 75 / 1000 * 1 * 60 = 797.805 := by
  refine ⟨?_, ?_, ?_, by norm_num⟩
  · norm_num [Running.get_distance, Training.LEN_STEP, Training.M_IN_KM]
  · norm_num [Running.get_mean_speed, Running.get_distance, pydiv,
      Training.LEN_STEP, Training.M_IN_KM]
  · norm_num [Running.get_spent_calories, Running.get_mean_speed,
      Running.get_distance, pydiv, Training.LEN_STEP, Training.M_IN_KM,
      Training.TIME_IN_MIN, Running.CALORIES_MEAN_SPEED_MULTIPLIER,
      Running.CALORIES_MEAN_SPEED_SHIFT]

/-- C5: for every Swimming reading with positive duration, the mean speed
is `length_pool * count_pool / 1000 / duration` and the calories are
`(mean_speed + 1.1) * 2 * weight * duration`; at the sample reading
(action=720, duration=1, weight=80, length_pool=25, count_pool=40) the
speed is 1.0 km/h and the calories 336.0 kcal. -/
theorem claim5_swimming_formulas (s : Swimming) (hd : 0 < s.duration) :
    s.get_mean_speed = .ok (s.length_pool * s.count_pool / 1000 / s.duration)
  ∧ s.get_spent_calories
      = .ok ((s.length_pool * s.count_pool / 1000 / s.duration + 1.1) * 2
             * s.weight * s.duration)
  ∧ (Swimming.mk 720 1 80 25 40).get_mean_speed = .ok 1
  ∧ (Swimming.mk 720 1 80 25 40).get_spent_calories = .ok 336 := by
  have hne : s.duration ≠ 0 := ne_of_gt hd
  refine ⟨?_, ?_, ?_, ?_⟩
  · rw [Swimming.get_mean_speed, pydiv_ne _ _ hne]
    norm_num [Training.M_IN_KM]
  · rw [Swimming.get_spent_calories, Swimming.get_mean_speed, pydiv_ne _ _ hne]
    norm_num [Training.M_IN_KM, Swimming.CALORIES_MEAN_SPEED_1,
      Swimming.CALORIES_MEAN_SPEED_2]
  · norm_num [Swimming.get_mean_speed, pydiv, Training.M_IN_KM]
  · norm_num [Swimming.get_spent_calories, Swimming.get_mean_speed, pydiv,
      Training.M_IN_KM, Swimming.CALORIES_MEAN_SPEED_1,
      Swimming.CALORIES_MEAN_SPEED_2]

/-- C5 (witness): the general part of `claim5_swimming_formulas`
instantiated at the sample swimming reading. -/
theorem claim5_witness :
    (0 : ℚ) < 1
  ∧ (Swimming.mk 720 1 80 25 40).get_mean_speed = .ok (25 * 40 / 1000 / 1) :=
  ⟨by norm_num,
   (claim5_swimming_formulas (Swimming.mk 720 1 80 25 40) (by norm_num)).1⟩

/-- Helper: calling `Swimming(*data)` with an argument count other than
five raises `TypeError`. -/
theorem swmFromList_arity (data : List ℚ) (h : data.length ≠ 5) :
    Swimming.fromList data = .error .typeError := by
  rcases data with _ | ⟨a, _ | ⟨b, _ | ⟨c, _ | ⟨d, _ | ⟨e, _ | ⟨f, rest⟩⟩⟩⟩⟩⟩ <;>
    first
    | rfl
    | exact absurd rfl h

/-- Helper: calling `Running(*data)` with an argument count other than
three raises `TypeError`. -/
theorem runFromList_arity (data : List ℚ) (h : data.length ≠ 3) :
    Running.fromList data = .error .typeError := by
  rcases data with _ | ⟨a, _ | ⟨b, _ | ⟨c, _ | ⟨d, rest⟩⟩⟩⟩ <;>
    first
    | rfl
    | exact absurd rfl h

/-- Helper: calling `SportsWalking(*data)` with an argument count other
than four raises `TypeError`. -/
theorem wlkFromList_arity (data : List ℚ) (h : data.length ≠ 4) :
    SportsWalking.fromList data = .error .typeError := by
  rcases data with _ | ⟨a, _ | ⟨b, _ | ⟨c, _ | ⟨d, _ | ⟨e, rest⟩⟩⟩⟩⟩ <;>
    first
    | rfl
    | exact absurd rfl h

/-- C1 (counterexample): on the unknown code "XYZ", `read_package` raises
`NotImplementedError` with the constant message "Ошибка не определена"; that
report contains neither the offending code "XYZ" nor any of the supported
codes, refuting the claimed error contents. -/
theorem claim1_counterexample :
    read_package "XYZ" [9000, 1, 75]
      = .error (.notImplementedError "Ошибка не определена")
  ∧ containsSeq "XYZ".toList "Ошибка не определена".toList = false
  ∧ containsSeq "SWM".toList "Ошибка не определена".toList = false
  ∧ containsSeq "RUN".toList "Ошибка не определена".toList = false
  ∧ containsSeq "WLK".toList "Ошибка не определена".toList = false := by
  refine ⟨?_, by decide, by decide, by decide, by decide⟩
  rfl

/-- C1 (amended): each supported code constructs the matching variant from
the positional data; every other code makes `read_package` raise
`NotImplementedError` with the fixed message "Ошибка не определена" (which
names neither the offending code nor the supported codes) and return no
training. -/
theorem claim1_amended_read_package :
    (∀ a d w lp cp : ℚ,
      read_package "SWM" [a, d, w, lp, cp] = .ok (.swm ⟨a, d, w, lp, cp⟩))
  ∧ (∀ a d w : ℚ, read_package "RUN" [a, d, w] = .ok (.run ⟨a, d, w⟩))
  ∧ (∀ a d w h : ℚ, read_package "WLK" [a, d, w, h] = .ok (.wlk ⟨a, d, w, h⟩))
  ∧ (∀ (code : String) (data : List ℚ),
      code ≠ "SWM" → code ≠ "RUN" → code ≠ "WLK" →
      read_package code data = .error (.notImplementedError "Ошибка не определена")
      ∧ ∀ t, read_package code data ≠ .ok t) := by
  refine ⟨fun a d w lp cp => rfl, fun a d w => rfl, fun a d w h => rfl,
    fun code data h1 h2 h3 => ?_⟩
  have he : read_package code data
      = .error (.notImplementedError "Ошибка не определена") := by
    simp [read_package, h1, h2, h3]
  exact ⟨he, fun t ht => by rw [he] at ht; exact Except.noConfusion ht⟩

/-- C1 (witness): `claim1_amended_read_package` applied to the unknown code
"ABC". -/
theorem claim1_witness :
    read_package "ABC" [720, 1, 80, 25, 40]
      = .error (.notImplementedError "Ошибка не определена") :=
  (claim1_amended_read_package.2.2.2 "ABC" [720, 1, 80, 25, 40]
    (by decide) (by decide) (by decide)).1

/-- C7 (counterexample): for the sample swimming reading the reported mean
speed is 1.0 km/h while the reported distance over the duration is
0.9936 km/h (Swimming overrides the speed but not the action-based
distance), so the claimed identity fails. -/
theorem claim7_counterexample :
    (Swimming.mk 720 1 80 25 40).get_mean_speed = .ok 1
  ∧ (Swimming.mk 720 1 80 25 40).get_distance
      / (Swimming.mk 720 1 80 25 40).duration = 0.9936
  ∧ (Swimming.mk 720 1 80 25 40).get_mean_speed
      ≠ .ok ((Swimming.mk 720 1 80 25 40).get_distance
             / (Swimming.mk 720 1 80 25 40).duration) := by
  refine ⟨?_, ?_, ?_⟩
  · norm_num [Swimming.get_mean_speed, pydiv, Training.M_IN_KM]
  · norm_num [Swimming.get_distance, Swimming.LEN_STEP, Training.M_IN_KM]
  · norm_num [Swimming.get_mean_speed, Swimming.get_distance, pydiv,
      Swimming.LEN_STEP, Training.M_IN_KM]

/-- C7 (amended): for Running and SportsWalking with positive duration the
mean speed equals the distance divided by the duration; Swimming overrides
the mean speed to `length_pool * count_pool / 1000 / duration`, which is
not the action-based distance over the duration in general. -/
theorem claim7_amended_speed_distance :
    (∀ r : Running, 0 < r.duration →
      r.get_mean_speed = .ok (r.get_distance / r.duration))
  ∧ (∀ w : SportsWalking, 0 < w.duration →
      w.get_mean_speed = .ok (w.get_distance / w.duration))
  ∧ (∀ s : Swimming, 0 < s.duration →
      s.get_mean_speed = .ok (s.length_pool * s.count_pool / 1000 / s.duration)) := by
  refine ⟨fun r hr => ?_, fun w hw => ?_, fun s hs => ?_⟩
  · rw [Running.get_mean_speed, pydiv_ne _ _ (ne_of_gt hr)]
  · rw [SportsWalking.get_mean_speed, pydiv_ne _ _ (ne_of_gt hw)]
  · rw [Swimming.get_mean_speed, pydiv_ne _ _ (ne_of_gt hs)]
    norm_num [Training.M_IN_KM]

/-- C7 (witness): `claim7_amended_speed_distance` instantiated at the
sample running and walking readings. -/
theorem claim7_witness :
    (Running.mk 15000 1 75).get_mean_speed
      = .ok ((Running.mk 15000 1 75).get_distance / 1)
  ∧ (SportsWalking.mk 9000 1 75 180).get_mean_speed
      = .ok ((SportsWalking.mk 9000 1 75 180).get_distance / 1) :=
  ⟨claim7_amended_speed_distance.1 (Running.mk 15000 1 75) (by norm_num),
   claim7_amended_speed_distance.2.1 (SportsWalking.mk 9000 1 75 180) (by norm_num)⟩

/-- C8: for each supported code, `read_package` raises `TypeError` (the
constructor-level invalid-arguments failure) whenever the data list's
length differs from the variant's field count (swimming 5, running 3,
walking 4), and with the exact arity it assigns the fields in positional
order. -/
theorem claim8_arity :
    (∀ data : List ℚ, data.length ≠ 5 →
      read_package "SWM" data = .error .typeError)
  ∧ (∀ data : List ℚ, data.length ≠ 3 →
      read_package "RUN" data = .error .typeError)
  ∧ (∀ data : List ℚ, data.length ≠ 4 →
      read_package "WLK" data = .error .typeError)
  ∧ (∀ a d w lp cp : ℚ,
      read_package "SWM" [a, d, w, lp, cp] = .ok (.swm ⟨a, d, w, lp, cp⟩))
  ∧ (∀ a d w : ℚ, read_package "RUN" [a, d, w] = .ok (.run ⟨a, d, w⟩))
  ∧ (∀ a d w h : ℚ,
      read_package "WLK" [a, d, w, h] = .ok (.wlk ⟨a, d, w, h⟩)) := by
  refine ⟨fun data h => ?_, fun data h => ?_, fun data h => ?_,
    fun a d w lp cp => rfl, fun a d w => rfl, fun a d w h => rfl⟩
  · show (Swimming.fromList data).map TrainingV.swm = .error .typeError
    rw [swmFromList_arity data h]
    rfl
  · show (Running.fromList data).map TrainingV.run = .error .typeError
    rw [runFromList_arity data h]
    rfl
  · show (SportsWalking.fromList data).map TrainingV.wlk = .error .typeError
    rw [wlkFromList_arity data h]
    rfl

/-- C8 (witness): `claim8_arity` applied at concrete wrong-arity and
exact-arity argument lists. -/
theorem claim8_witness :
    read_package "SWM" [720, 1] = .error .typeError
  ∧ read_package "RUN" [15000, 1, 75, 99] = .error .typeError
  ∧ read_package "WLK" [9000] = .error .typeError
  ∧ read_package "RUN" [15000, 1, 75] = .ok (.run ⟨15000, 1, 75⟩) :=
  ⟨claim8_arity.1 [720, 1] (by decide),
   claim8_arity.2.1 [15000, 1, 75, 99] (by decide),
   claim8_arity.2.2.1 [9000] (by decide),
   claim8_arity.2.2.2.2.1 15000 1 75⟩

/-- Helper: `get_message` spelled out — the template literals with the five
data fields substituted positionally, the four numeric ones through the
three-decimal rendering (the sixth `asdict` value, the template itself, is
ignored by `format`). -/
theorem InfoMessage.get_message_eq (m : InfoMessage) :
    m.get_message
      = "Тип тренировки: " ++ m.training_type ++ "; Длительность: "
        ++ format3 m.duration ++ " ч.; Дистанция: " ++ format3 m.distance
        ++ " км; Ср. скорость: " ++ format3 m.speed ++ " км/ч; Потрачено ккал: "
        ++ format3 m.calories ++ "." := by
  simp [InfoMessage.get_message, InfoMessage.asdictValues, MessageParts,
    formatParts, renderPlain, render3, String.append_assoc]

/-- C6: whenever `show_training_info` produces an `InfoMessage`, its
`get_message` is exactly the fixed template with the five fields
substituted positionally in the order name, duration, distance, speed,
calories, the numeric ones rendered with exactly three decimal places —
and those fields are the training's name, duration, distance, mean speed
and calories. -/
theorem claim6_message_format (t : TrainingV) (m : InfoMessage)
    (_hd : 0 < t.duration) (hm : t.show_training_info = .ok m) :
    m.get_message
      = "Тип тренировки: " ++ m.training_type ++ "; Длительность: "
        ++ format3 m.duration ++ " ч.; Дистанция: " ++ format3 m.distance
        ++ " км; Ср. скорость: " ++ format3 m.speed ++ " км/ч; Потрачено ккал: "
        ++ format3 m.calories ++ "."
  ∧ m.training_type = t.name ∧ m.duration = t.duration
  ∧ m.distance = t.get_distance
  ∧ t.get_mean_speed = .ok m.speed ∧ t.get_spent_calories = .ok m.calories := by
  rcases hs : t.get_mean_speed with e | s
  · rw [TrainingV.show_training_info, hs] at hm
    exact absurd hm (by simp)
  rcases hc : t.get_spent_calories with e | c
  · rw [TrainingV.show_training_info, hs, hc] at hm
    simp at hm
  rw [TrainingV.show_training_info, hs, hc] at hm
  simp only [exbind_ok, Except.ok.injEq] at hm
  subst hm
  exact ⟨InfoMessage.get_message_eq _, rfl, rfl, rfl, rfl, rfl⟩

/-- Helper: three-decimal rendering of 1. -/
theorem format3_one : format3 (1 : ℚ) = "1.000" := by
  have h : Int.floor ((1 : ℚ) * 1000 + 1 / 2) = 1000 := by norm_num
  rw [format3, h]
  decide

/-- Helper: three-decimal rendering of 9.75. -/
theorem format3_nine_75 : format3 (9.75 : ℚ) = "9.750" := by
  have h : Int.floor ((9.75 : ℚ) * 1000 + 1 / 2) = 9750 := by norm_num
  rw [format3, h]
  decide

/-- Helper: three-decimal rendering of 797.805. -/
theorem format3_calories_run : format3 (159561 / 200 : ℚ) = "797.805" := by
  have h : Int.floor ((159561 / 200 : ℚ) * 1000 + 1 / 2) = 797805 := by norm_num
  rw [format3, h]
  decide

/-- C6 (witness): `claim6_message_format` at the sample running reading,
with the message fully evaluated. -/
theorem claim6_witness :
    (0 : ℚ) < (TrainingV.run (Running.mk 15000 1 75)).duration
  ∧ (TrainingV.run (Running.mk 15000 1 75)).show_training_info
      = .ok (InfoMessage.mk "Running" 1 9.75 9.75 (159561 / 200))
  ∧ (InfoMessage.mk "Running" 1 9.75 9.75 (159561 / 200)).get_message
      = "Тип тренировки: Running; Длительность: 1.000 ч.; Дистанция: 9.750 км; Ср. скорость: 9.750 км/ч; Потрачено ккал: 797.805." := by
  have hd : (0 : ℚ) < (TrainingV.run (Running.mk 15000 1 75)).duration := by
    norm_num [TrainingV.duration]
  have hm : (TrainingV.run (Running.mk 15000 1 75)).show_training_info
      = .ok (InfoMessage.mk "Running" 1 9.75 9.75 (159561 / 200)) := by
    norm_num [TrainingV.show_training_info, TrainingV.get_mean_speed,
      TrainingV.get_spent_calories, TrainingV.name, TrainingV.duration,
      TrainingV.get_distance, Running.get_mean_speed, Running.get_spent_calories,
      Running.get_distance, pydiv, Training.LEN_STEP, Training.M_IN_KM,
      Training.TIME_IN_MIN, Running.CALORIES_MEAN_SPEED_MULTIPLIER,
      Running.CALORIES_MEAN_SPEED_SHIFT]
  refine ⟨hd, hm, ?_⟩
  rw [(claim6_message_format _ _ hd hm).1]
  simp only [format3_one, format3_nine_75, format3_calories_run]
  decide

/-- C9 (counterexample): a walking reading with duration 1 (> 0) but height
0 still divides by zero while computing the summary, so "mean speed (and
hence the summary) never divides by zero when duration > 0" fails as
stated. -/
theorem claim9_counterexample :
    (0 : ℚ) < (TrainingV.wlk (SportsWalking.mk 9000 1 75 0)).duration
  ∧ (TrainingV.wlk (SportsWalking.mk 9000 1 75 0)).show_training_info
      = .error .zeroDivisionError := by
  constructor
  · norm_num [TrainingV.duration]
  · norm_num [TrainingV.show_training_info, TrainingV.get_mean_speed,
      TrainingV.get_spent_calories, SportsWalking.get_mean_speed,
      SportsWalking.get_spent_calories, SportsWalking.get_distance, pydiv,
      Training.LEN_STEP, Training.M_IN_KM, SportsWalking.FROM_KM_TO_MS,
      SportsWalking.FROM_SM_TO_M]

/-- C9 (amended): for every reading with positive duration the mean-speed
computation never divides by zero, and the full summary is produced for
Running and Swimming; a Walking summary additionally needs a nonzero
height. With duration = 0 the mean-speed computation fails with
`ZeroDivisionError` — a defined error, not a silent infinity or NaN. -/
theorem claim9_amended_division_safety :
    (∀ r : Running,
      (0 < r.duration → ∃ m, (TrainingV.run r).show_training_info = .ok m)
      ∧ (r.duration = 0 → r.get_mean_speed = .error .zeroDivisionError))
  ∧ (∀ s : Swimming,
      (0 < s.duration → ∃ m, (TrainingV.swm s).show_training_info = .ok m)
      ∧ (s.duration = 0 → s.get_mean_speed = .error .zeroDivisionError))
  ∧ (∀ w : SportsWalking,
      (0 < w.duration → ∃ q, w.get_mean_speed = .ok q)
      ∧ (w.duration = 0 → w.get_mean_speed = .error .zeroDivisionError)
      ∧ (0 < w.duration → w.height ≠ 0 →
          ∃ m, (TrainingV.wlk w).show_training_info = .ok m)) := by
  refine ⟨fun r => ⟨fun hd => ?_, fun h0 => ?_⟩,
    fun s => ⟨fun hd => ?_, fun h0 => ?_⟩,
    fun w => ⟨fun hd => ?_, fun h0 => ?_, fun hd hh => ?_⟩⟩
  · have hs : r.get_mean_speed = .ok (r.get_distance / r.duration) := by
      rw [Running.get_mean_speed, pydiv_ne _ _ (ne_of_gt hd)]
    simp only [TrainingV.show_training_info, TrainingV.get_mean_speed,
      TrainingV.get_spent_calories, Running.get_spent_calories, hs, exbind_ok]
    exact ⟨_, rfl⟩
  · rw [Running.get_mean_speed, h0, pydiv_zero]
  · have hs : s.get_mean_speed
        = .ok (s.length_pool * s.count_pool / Training.M_IN_KM / s.duration) := by
      rw [Swimming.get_mean_speed, pydiv_ne _ _ (ne_of_gt hd)]
    simp only [TrainingV.show_training_info, TrainingV.get_mean_speed,
      TrainingV.get_spent_calories, Swimming.get_spent_calories, hs, exbind_ok]
    exact ⟨_, rfl⟩
  · rw [Swimming.get_mean_speed, h0, pydiv_zero]
  · rw [SportsWalking.get_mean_speed, pydiv_ne _ _ (ne_of_gt hd)]
    exact ⟨_, rfl⟩
  · rw [SportsWalking.get_mean_speed, h0, pydiv_zero]
  · have hs : w.get_mean_speed = .ok (w.get_distance / w.duration) := by
      rw [SportsWalking.get_mean_speed, pydiv_ne _ _ (ne_of_gt hd)]
    have h100 : w.height / SportsWalking.FROM_SM_TO_M ≠ 0 :=
      div_ne_zero hh (by norm_num [SportsWalking.FROM_SM_TO_M])
    have hq := pydiv_ne ((w.get_distance / w.duration
      * SportsWalking.FROM_KM_TO_MS) ^ 2) _ h100
    simp only [TrainingV.show_training_info, TrainingV.get_mean_speed,
      TrainingV.get_spent_calories, SportsWalking.get_spent_calories, hs,
      exbind_ok, hq]
    exact ⟨_, rfl⟩

/-- C9 (witness): `claim9_amended_division_safety` at concrete readings —
positive-duration summaries for the three sample readings and a
zero-duration mean-speed failure. -/
theorem claim9_witness :
    (∃ m, (TrainingV.run (Running.mk 15000 1 75)).show_training_info = .ok m)
  ∧ (∃ m, (TrainingV.swm (Swimming.mk 720 1 80 25 40)).show_training_info = .ok m)
  ∧ (∃ m, (TrainingV.wlk (SportsWalking.mk 9000 1 75 180)).show_training_info = .ok m)
  ∧ (Running.mk 15000 0 75).get_mean_speed = .error .zeroDivisionError :=
  ⟨(claim9_amended_division_safety.1 (Running.mk 15000 1 75)).1 (by norm_num),
   (claim9_amended_division_safety.2.1 (Swimming.mk 720 1 80 25 40)).1 (by norm_num),
   (claim9_amended_division_safety.2.2 (SportsWalking.mk 9000 1 75 180)).2.2
     (by norm_num) (by norm_num),
   (claim9_amended_division_safety.1 (Running.mk 15000 0 75)).2 rfl⟩

/-- C10: for a walking reading with positive duration, a positive height
makes the calorie computation's inner divisor `height / 100` nonzero and
the computation succeed, while height = 0 makes `get_spent_calories`
divide by zero and fail even though the duration is positive. -/
theorem claim10_walking_height_boundary (w : SportsWalking) (hd : 0 < w.duration) :
    (0 < w.height →
      w.height / 100 ≠ 0 ∧ ∃ q, w.get_spent_calories = .ok q)
  ∧ (w.height = 0 → w.get_spent_calories = .error .zeroDivisionError) := by
  have hs : w.get_mean_speed = .ok (w.get_distance / w.duration) := by
    rw [SportsWalking.get_mean_speed, pydiv_ne _ _ (ne_of_gt hd)]
  constructor
  · intro hh
    have h100 : w.height / SportsWalking.FROM_SM_TO_M ≠ 0 :=
      div_ne_zero (ne_of_gt hh) (by norm_num [SportsWalking.FROM_SM_TO_M])
    refine ⟨div_ne_zero (ne_of_gt hh) (by norm_num), ?_⟩
    have hq := pydiv_ne ((w.get_distance / w.duration
      * SportsWalking.FROM_KM_TO_MS) ^ 2) _ h100
    simp only [SportsWalking.get_spent_calories, hs, exbind_ok, hq]
    exact ⟨_, rfl⟩
  · intro hh
    simp only [SportsWalking.get_spent_calories, hs, exbind_ok, hh]
    norm_num [SportsWalking.FROM_SM_TO_M, pydiv_zero]

/-- C10 (witness): `claim10_walking_height_boundary` at the sample walking
reading (height 180) and at the same reading with height 0. -/
theorem claim10_witness :
    ((SportsWalking.mk 9000 1 75 180).height / 100 ≠ 0
      ∧ ∃ q, (SportsWalking.mk 9000 1 75 180).get_spent_calories = .ok q)
  ∧ (SportsWalking.mk 9000 1 75 0).get_spent_calories
      = .error .zeroDivisionError :=
  ⟨(claim10_walking_height_boundary (SportsWalking.mk 9000 1 75 180)
      (by norm_num)).1 (by norm_num),
   (claim10_walking_height_boundary (SportsWalking.mk 9000 1 75 0)
      (by norm_num)).2 rfl⟩
